import Mathlib

/-!
# Verification of the py2api dispatch pipeline

A shallow embedding of the core of the `py2api` repository:

* the layered conditional trans-spec resolvers
  (`InputTrans.search_trans_func` of `py2rest/input_trans.py`,
  `InputTrans.search_trans_func` of `py2api/py2rest/input_trans.py`,
  `OutputTrans.search_trans_func` of `py2api/output_trans.py`),
* input collection (`InputTrans.__call__` of `py2api/py2rest/input_trans.py`),
* the attribute-permission machinery
  (`get_pattern_from_attr_permissions_dict` of `py2api/util.py` and of
  `py2rest.py`, class `PermissibleAttr` of `py2api/util.py`) together with a
  model of the Python `re` subset those functions emit,
* the dispatch controller (`ObjWrap.__call__` of `py2api/obj_wrap.py`).

Python values are modelled by `PyVal`, Python dicts by insertion-ordered
association lists, Python exceptions by an error type threaded through
`Except`.  Callables are represented by numeric tags interpreted through an
environment, mutable dict identity by explicit heap cells.

The module `py2api/constants.py` is not part of the source tree (only its
importers are), so the constant values are modelled from the spec and from
the docstrings that mention them; each such constant is marked below.
-/

namespace Py2Api

/-- Association list lookup: Python `d.get(k)` / `d[k]` on a string-keyed
dict (keys are unique, so first binding wins). -/
def lookupA {α : Type} : List (String × α) → String → Option α
  | [], _ => none
  | (k, v) :: rest, key => if k == key then some v else lookupA rest key

/-- Runtime type tags used by the `_valtype` axes (`isinstance` checks). -/
inductive PyType where
  | intT | boolT | strT | listT | noneT
  deriving DecidableEq

/-- Python values, as far as the dispatch pipeline inspects them.  Callables
are numeric tags, interpreted by an environment where they are applied. -/
inductive PyVal where
  | pyNone
  | pyBool (b : Bool)
  | pyInt (n : Int)
  | pyStr (s : String)
  | pyList (xs : List PyVal)
  | pyObj (attrs : List (String × PyVal))
  | pyFunc (tag : Nat)

open PyVal

/-- `isinstance(val, t)`: subtype-compatible matching; in particular Python's
`bool` is a subclass of `int`, so a `bool` value matches an `int` entry. -/
def pyIsInstance : PyVal → PyType → Bool
  | pyBool _, .boolT => true
  | pyBool _, .intT => true
  | pyInt _, .intT => true
  | pyStr _, .strT => true
  | pyList _, .listT => true
  | pyNone, .noneT => true
  | _, _ => false

/-- Python truthiness of a value (`if val:`). -/
def pyTruthy : PyVal → Bool
  | pyNone => false
  | pyBool b => b
  | pyInt n => n != 0
  | pyStr s => s ≠ ""
  | pyList xs => !xs.isEmpty
  | pyObj _ => true
  | pyFunc _ => true

/-- A Python dict with `String` keys, as an insertion-ordered association
list (CPython dicts preserve insertion order). -/
abbrev Dict := List (String × PyVal)

/-- `d[k] = v`: update in place when the key exists, else append. -/
def dictSet : Dict → String → PyVal → Dict
  | [], k, v => [(k, v)]
  | (k', v') :: rest, k, v =>
    if k' == k then (k', v) :: rest else (k', v') :: dictSet rest k v

/-- `d.pop(k, None)`, the removal part. -/
def dictPop : Dict → String → Dict
  | [], _ => []
  | (k', v') :: rest, k => if k' == k then rest else (k', v') :: dictPop rest k

/-- `d.pop(k, None)`: the popped value (`None` when absent) and the
remaining dict. -/
def dictPopGet (d : Dict) (k : String) : PyVal × Dict :=
  ((lookupA d k).getD pyNone, dictPop d k)

/-! ## The recursive trans-spec tree

A `trans_spec` in the source is either a callable, or a dict with the
optional keys `_source`, `_attr`, `_argname`, `_valtype`, `_else`, or some
other non-callable non-dict value.  `junk` carries its Python truthiness
because the `if _trans_spec:` guards depend on it.

`TRANS_NOT_FOUND` (imported from the absent `py2api/constants.py`) is
modelled as `Option.none`: every use site (`or`-chaining of search results,
`if _trans_spec:` guards against a `.get(..., TRANS_NOT_FOUND)` result)
requires a falsy sentinel such as `None`. -/

inductive TransSpec where
  /-- a callable leaf (converter function), tagged -/
  | func (tag : Nat)
  /-- a non-callable, non-dict value; `truthy` is its Python truthiness -/
  | junk (truthy : Bool)
  /-- a spec dict: `_source`, `_attr`, `_argname`, `_valtype`, `_else` -/
  | node (srcF : List (String × TransSpec)) (attrF : List (String × TransSpec))
         (argF : List (String × TransSpec)) (vtF : List (PyType × TransSpec))
         (elsF : Option TransSpec)

namespace TransSpec

/-- `len(trans_spec) == 0` for the dict case (the empty dict). -/
def isEmptyDict : TransSpec → Bool
  | node [] [] [] [] none => true
  | _ => false

/-- Python truthiness of a trans-spec value: callables are truthy, dicts are
truthy iff non-empty. -/
def pyTruthySpec : TransSpec → Bool
  | func _ => true
  | junk t => t
  | node s a g v e => !(isEmptyDict (node s a g v e))

end TransSpec

/-- First `(type, spec)` entry of a `_valtype` dict (in declaration order)
whose type `isinstance`-matches the value; the entry's spec is returned
directly, without further recursive resolution (`return _type_trans_spec`). -/
def valtypeFirst : List (PyType × TransSpec) → PyVal → Option TransSpec
  | [], _ => none
  | (t, sub) :: rest, val =>
    if pyIsInstance val t then some sub else valtypeFirst rest val

/-! ### `InputTrans.search_trans_func` of `src/py2rest/input_trans.py`

Lines 245-305: axes in the order `_source` (only when a source is given),
`_attr`, `_argname`, `_valtype`, `_else`; each guarded recursive result is
returned as soon as it is not `TRANS_NOT_FOUND`.  The field searches
(`trans_spec.get(field, {}).get(key, ...)` followed by `if _trans_spec:`)
are modelled by walkers that locate the key's binding and recurse into it
only when the sub-spec is Python-truthy. -/

mutual

def pyrestSearch (attrV : PyVal) (argname : String) (val : PyVal)
    (spec : TransSpec) (source : Option String) : Option TransSpec :=
  match spec with
  | .func tag => some (.func tag)
  | .junk _ => none
  | .node srcF attrF argF vtF elsF =>
    if TransSpec.isEmptyDict (.node srcF attrF argF vtF elsF) then none
    else
      let fromSource :=
        match source with
        | some s => pyrestField attrV argname val srcF s source
        | none => none
      match fromSource with
      | some tf => some tf
      | none =>
        let fromAttr :=
          match attrV with
          | pyStr a => pyrestField attrV argname val attrF a source
          | _ => none
        match fromAttr with
        | some tf => some tf
        | none =>
          match pyrestField attrV argname val argF argname source with
          | some tf => some tf
          | none =>
            match valtypeFirst vtF val with
            | some sub => some sub
            | none =>
              match elsF with
              | some e => pyrestSearch attrV argname val e source
              | none => none

/-- Field lookup plus the `if _trans_spec:` truthiness guard, recursing into
the sub-spec found. -/
def pyrestField (attrV : PyVal) (argname : String) (val : PyVal)
    (l : List (String × TransSpec)) (key : String) (source : Option String) :
    Option TransSpec :=
  match l with
  | [] => none
  | (k, v) :: rest =>
    if k == key then
      if v.pyTruthySpec then pyrestSearch attrV argname val v source else none
    else pyrestField attrV argname val rest key source

end

/-! ### `InputTrans.search_trans_func` of `src/py2api/py2rest/input_trans.py`

Lines 236-310.  This variant differs from the `py2rest` one: it has **no**
`_valtype` axis at all, and after computing
`trans_func = search_in_field(_ATTR, attr) or search_in_field(_ARGNAME, argname)`
it does **not** return early: when an `_ELSE` key is present and truthy it
**reassigns** `trans_func` to the result of searching the `_else` sub-spec,
discarding any previously found `_attr`/`_argname` result. -/

mutual

def py2apiSearch (attrV : PyVal) (argname : String) (val : PyVal)
    (spec : TransSpec) (source : Option String) : Option TransSpec :=
  match spec with
  | .func tag => some (.func tag)
  | .junk _ => none
  | .node srcF attrF argF _vtF elsF =>
    if TransSpec.isEmptyDict (.node srcF attrF argF _vtF elsF) then none
    else
      let fromSource :=
        match source with
        | some s => py2apiField attrV argname val srcF s source
        | none => none
      match fromSource with
      | some tf => some tf
      | none =>
        let fromAttr :=
          match attrV with
          | pyStr a => py2apiField attrV argname val attrF a source
          | _ => none
        let transFunc :=
          match fromAttr with
          | some tf => some tf
          | none => py2apiField attrV argname val argF argname source
        -- `_trans_spec = trans_spec.get(_ELSE, TRANS_NOT_FOUND)`;
        -- `if _trans_spec: trans_func = self.search_trans_func(...)`
        -- (an unconditional overwrite of `trans_func`)
        match elsF with
        | some e =>
          if e.pyTruthySpec then py2apiSearch attrV argname val e source
          else transFunc
        | none => transFunc

def py2apiField (attrV : PyVal) (argname : String) (val : PyVal)
    (l : List (String × TransSpec)) (key : String) (source : Option String) :
    Option TransSpec :=
  match l with
  | [] => none
  | (k, v) :: rest =>
    if k == key then
      if v.pyTruthySpec then py2apiSearch attrV argname val v source else none
    else py2apiField attrV argname val rest key source

end

/-! ### `OutputTrans.search_trans_func` of `src/py2api/output_trans.py`

Lines 72-108.  An output trans-spec dict has the keys `_output_trans`
(an axis analogous to `_source`, consulted only when an `output_trans`
mode is given), `_attr`, `_valtype` and `_else`.  The recursive calls for
the `_attr` and `_else` axes drop the `output_trans` argument (it is not
passed along, so it is `None` in the recursion). -/

inductive OutSpec where
  | func (tag : Nat)
  | junk (truthy : Bool)
  | node (otransF : List (String × OutSpec)) (attrF : List (String × OutSpec))
         (vtF : List (PyType × OutSpec)) (elsF : Option OutSpec)

namespace OutSpec

/-- `len(trans_spec) == 0` for the dict case. -/
def isEmptyDict : OutSpec → Bool
  | node [] [] [] none => true
  | _ => false

/-- Python truthiness of an output trans-spec value. -/
def pyTruthySpec : OutSpec → Bool
  | func _ => true
  | junk t => t
  | node o a v e => !(isEmptyDict (node o a v e))

end OutSpec

/-- First `isinstance`-matching `_valtype` entry of an output spec. -/
def outValtypeFirst : List (PyType × OutSpec) → PyVal → Option OutSpec
  | [], _ => none
  | (t, sub) :: rest, val =>
    if pyIsInstance val t then some sub else outValtypeFirst rest val

mutual

def outputSearch (attrV : PyVal) (val : PyVal) (spec : OutSpec)
    (outputTrans : Option String) : Option OutSpec :=
  match spec with
  | .func tag => some (.func tag)
  | .junk _ => none
  | .node otransF attrF vtF elsF =>
    if OutSpec.isEmptyDict (.node otransF attrF vtF elsF) then none
    else
      let fromOt :=
        match outputTrans with
        | some ot => outputField attrV val otransF ot outputTrans
        | none => none
      match fromOt with
      | some tf => some tf
      | none =>
        let fromAttr :=
          match attrV with
          | pyStr a => outputField attrV val attrF a none
          | _ => none
        match fromAttr with
        | some tf => some tf
        | none =>
          match outValtypeFirst vtF val with
          | some sub => some sub
          | none =>
            match elsF with
            | some e => outputSearch attrV val e none
            | none => none

def outputField (attrV : PyVal) (val : PyVal)
    (l : List (String × OutSpec)) (key : String) (outputTrans : Option String) :
    Option OutSpec :=
  match l with
  | [] => none
  | (k, v) :: rest =>
    if k == key then
      if v.pyTruthySpec then outputSearch attrV val v outputTrans else none
    else outputField attrV val rest key outputTrans

end

/-! ## A model of the Python `re` subset emitted by the permission builders

The patterns constructed by the two `get_pattern_from_attr_permissions_dict`
variants use only: literal characters, `.` (any character but newline),
postfix `*` on a single-character atom, `$` (end anchor), `|` (alternation,
lowest precedence), `(?! ... )` (negative lookahead, never nested), and
backslash escapes.  `re.match` semantics: the pattern must match starting at
position 0, a proper prefix match is a match, and a zero-width match is
still truthy. -/

/-- A single-character regex atom. -/
inductive RAtom where
  | lit (c : Char)
  | dot
  deriving DecidableEq

/-- A regex item; `neg` is a negative lookahead over an alternation of
sequences. -/
inductive RItem where
  | atom (a : RAtom)
  | star (a : RAtom)
  | endA
  | neg (alts : List (List RItem))

/-- Does an atom match one character (Python `.` does not match newline)? -/
def atomMatch : RAtom → Char → Bool
  | .lit c, x => c == x
  | .dot, x => x != '\n'

mutual

/-- Fueled matcher for one alternative (a sequence of items) against a
character list; `true` means the whole sequence matches some prefix.
The fuel only bounds recursion depth; every use below supplies fuel
exceeding the maximal depth `2*|input| + 2*|pattern source|`. -/
def seqMatch : Nat → List RItem → List Char → Bool
  | 0, _, _ => false
  | _ + 1, [], _ => true
  | fuel + 1, it :: rest, s =>
    match it with
    | .atom a =>
      match s with
      | [] => false
      | x :: xs => atomMatch a x && seqMatch fuel rest xs
    | .star a =>
      seqMatch fuel rest s ||
        (match s with
         | [] => false
         | x :: xs => atomMatch a x && seqMatch fuel (.star a :: rest) xs)
    | .endA =>
      match s with
      | [] => seqMatch fuel rest []
      | _ :: _ => false
    | .neg alts => !patMatch fuel alts s && seqMatch fuel rest s

/-- Fueled matcher for an alternation: any alternative matching a prefix. -/
def patMatch : Nat → List (List RItem) → List Char → Bool
  | 0, _, _ => false
  | fuel + 1, alts, s =>
    match alts with
    | [] => false
    | items :: more => seqMatch fuel items s || patMatch fuel more s

end

/-- Tokens of the regex subset. -/
inductive Tok where
  | litTok (c : Char)
  | dotTok
  | starTok
  | endTok
  | barTok
  | openNegTok
  | closeTok
  deriving DecidableEq

/-- Tokenize a pattern string; `none` on a construct outside the subset
(a group that is not a negative lookahead, or a dangling backslash). -/
def tokenize : List Char → Option (List Tok)
  | [] => some []
  | '\\' :: c :: rest => (tokenize rest).map (.litTok c :: ·)
  | '\\' :: [] => none
  | '(' :: '?' :: '!' :: rest => (tokenize rest).map (.openNegTok :: ·)
  | '(' :: _ => none
  | ')' :: rest => (tokenize rest).map (.closeTok :: ·)
  | '|' :: rest => (tokenize rest).map (.barTok :: ·)
  | '*' :: rest => (tokenize rest).map (.starTok :: ·)
  | '.' :: rest => (tokenize rest).map (.dotTok :: ·)
  | '$' :: rest => (tokenize rest).map (.endTok :: ·)
  | c :: rest => (tokenize rest).map (.litTok c :: ·)

/-- Split a token stream at the first `)` (lookahead bodies never nest). -/
def splitNeg : List Tok → Option (List Tok × List Tok)
  | [] => none
  | .closeTok :: rest => some ([], rest)
  | t :: rest => (splitNeg rest).map (fun (body, r) => (t :: body, r))

/-- Fueled parser from tokens to an alternation of item sequences.
`cur` is the current sequence reversed, `acc` the completed alternatives;
`allowNeg` is false inside a lookahead body (no nesting). -/
def buildSeqs : Nat → Bool → List Tok → List RItem → List (List RItem) →
    Option (List (List RItem))
  | 0, _, _, _, _ => none
  | _ + 1, _, [], cur, acc => some (acc ++ [cur.reverse])
  | fuel + 1, allowNeg, t :: rest, cur, acc =>
    match t with
    | .barTok => buildSeqs fuel allowNeg rest [] (acc ++ [cur.reverse])
    | .litTok c => buildSeqs fuel allowNeg rest (.atom (.lit c) :: cur) acc
    | .dotTok => buildSeqs fuel allowNeg rest (.atom .dot :: cur) acc
    | .endTok => buildSeqs fuel allowNeg rest (.endA :: cur) acc
    | .starTok =>
      match cur with
      | .atom a :: cs => buildSeqs fuel allowNeg rest (.star a :: cs) acc
      | _ => none
    | .openNegTok =>
      if allowNeg then
        match splitNeg rest with
        | some (body, rest') =>
          match buildSeqs fuel false body [] [] with
          | some alts => buildSeqs fuel allowNeg rest' (.neg alts :: cur) acc
          | none => none
        | none => none
      else none
    | .closeTok => none

/-- Parse a pattern string of the supported subset. -/
def parsePattern (p : String) : Option (List (List RItem)) :=
  match tokenize p.toList with
  | some toks => buildSeqs (toks.length + 2) true toks [] []
  | none => none

/-- `bool(re.compile(p).match(s))`; `none` when the pattern lies outside the
modelled subset. -/
def reMatchB (p : String) (s : String) : Option Bool :=
  (parsePattern p).map
    (fun alts => patMatch (4 * (s.length + p.length) + 8) alts s.toList)

/-! ## `get_pattern_from_attr_permissions_dict`, `py2rest.py` lines 155-219

Include correction: append `$` unless the pattern ends with `*` (or already
with `$`); normalize a trailing `\.​*` or a `*` not preceded by `.` to `.*`.
Exclude correction: append `.*` unless the pattern already ends with `$` or
`*`; same trailing-`*` normalization.  The accesses `include[-2]` /
`exclude[-2]` raise `IndexError` on strings shorter than 2, modelled by
`Option.none`. -/

/-- Python `s.endswith(suffix)` (over the characters; `String.endsWith`
does not reduce well in the kernel). -/
def strEndsWith (s suffix : String) : Bool :=
  List.isSuffixOf suffix.toList s.toList

/-- Python `s[-2]`. -/
def secondLast (s : String) : Option Char := s.toList.reverse.get? 1

/-- The include-correction loop body of `py2rest.py`. -/
def correctedInclude (include' : String) : Option String :=
  if !strEndsWith include' "*" then
    some (if !strEndsWith include' "$" then include' ++ "$" else include')
  else if strEndsWith include' "\\.*" then
    some (String.mk (include'.toList.dropLast.dropLast.dropLast) ++ ".*")
  else
    match secondLast include' with
    | some c => some (if c ≠ '.' then String.mk include'.toList.dropLast ++ ".*"
                      else include')
    | none => none

/-- The exclude-correction loop body of `py2rest.py`.  (The `else` comment
in the source says "ends with `*`", but the branch is also taken for
patterns ending in `$`.) -/
def correctedExclude (exclude : String) : Option String :=
  if !strEndsWith exclude "$" && !strEndsWith exclude "*" then
    some (exclude ++ ".*")
  else if strEndsWith exclude "\\.*" then
    some (String.mk (exclude.toList.dropLast.dropLast.dropLast) ++ ".*")
  else
    match secondLast exclude with
    | some c => some (if c ≠ '.' then String.mk exclude.toList.dropLast ++ ".*"
                      else exclude)
    | none => none

/-- `get_pattern_from_attr_permissions_dict` of `py2rest.py`: the corrected
includes joined by `|`, then — when there are excludes — a single negative
lookahead over the corrected excludes appended after the include union. -/
def getPatternPy2rest (incl excl : List String) : Option String := do
  let ci ← incl.mapM correctedInclude
  let ce ← excl.mapM correctedExclude
  let s := String.intercalate "|" ci
  return if !ce.isEmpty then s ++ "(?!" ++ String.intercalate "|" ce ++ ")" else s

/-- `ObjWrapper._is_permissible_attr` of `py2rest.py`, for a dict
permissions spec: `bool(pattern.match(attr))`. -/
def permitsPy2rest (incl excl : List String) (attr : String) : Option Bool := do
  let p ← getPatternPy2rest incl excl
  reMatchB p attr

/-! ## `get_pattern_from_attr_permissions_dict`, `py2api/util.py` lines 116-148

The body is the single expression
`re.compile(incls + '(?!%s)' % '|'.join(excls) if excls else '')`.
By Python precedence the conditional spans the whole argument: with no
excludes the compiled pattern is the empty string, and `'|'.join(excls)`
iterates over the *characters* of the already-joined exclude string. -/

/-- `'|'.join(s)` over a string (character-wise). -/
def charJoin (s : String) : String :=
  String.intercalate "|" (s.toList.map (fun c => String.mk [c]))

/-- The pattern string compiled by the `py2api/util.py` variant. -/
def getPatternUtil (incl excl : List String) : String :=
  let incls := String.intercalate "|" incl
  let excls := String.intercalate "|" excl
  if excls ≠ "" then incls ++ "(?!" ++ charJoin excls ++ ")" else ""

/-! ## `PermissibleAttr`, `py2api/util.py` lines 69-102 -/

/-- The accepted forms of `permissible_attrs`.  A dict spec records the
`include`/`exclude` keys as present or absent (`{}` is `dictSpec none
none`), since the falsiness test `if not permissible_attrs` distinguishes
`{}` from `{'include': []}`. -/
inductive AttrSpec where
  | noSpec
  | listSpec (l : List String)
  | dictSpec (incl excl : Option (List String))
  | strSpec (s : String)

/-- Python truthiness of a permissions spec. -/
def attrSpecTruthy : AttrSpec → Bool
  | .noSpec => false
  | .listSpec l => !l.isEmpty
  | .dictSpec i e => i.isSome || e.isSome
  | .strSpec s => s ≠ ""

/-- `PermissibleAttr.__init__`: the compiled
`permissible_attr_pattern` (`none` = no pattern, reject everything).  A
falsy spec is replaced by `None`; a list becomes `{'include': list}`; a
dict goes through `get_pattern_from_attr_permissions_dict`; a string is
compiled as-is. -/
def permissibleAttrPattern : AttrSpec → Option String
  | .noSpec => none
  | .listSpec l =>
    if !(attrSpecTruthy (.listSpec l)) then none
    else some (getPatternUtil l [])
  | .dictSpec i e =>
    if !(attrSpecTruthy (.dictSpec i e)) then none
    else some (getPatternUtil (i.getD []) (e.getD []))
  | .strSpec s =>
    if !(attrSpecTruthy (.strSpec s)) then none else some s

/-- `PermissibleAttr.__call__`:
`bool(pattern is not None and pattern.match(attr))`.  The outer `none`
means the compiled pattern lies outside the modelled regex subset. -/
def permitsUtil (spec : AttrSpec) (attr : String) : Option Bool :=
  match permissibleAttrPattern spec with
  | none => some false
  | some p => reMatchB p attr

/-! ## Input collection: `InputTrans.__call__`, `py2api/py2rest/input_trans.py`

Lines 318-349, together with `_get_attr_from_request` (312-316),
`get_request_data_from_source` (30-36) and `get_empty_none` (22-28).

Python exceptions are modelled by `PyErr` and `Except`; the mutable
identity of the per-attribute defaults dicts (`self.dflt_spec` values) by a
heap of dict cells addressed by `Nat` pointers. -/

/-- Source-name constants.  `'_json'` and `'_args'` are documented in the
`InputTrans` docstring ("if sources=('_json', '_args')"); `'_route'` is
modelled from the spec (its defining module `py2api/py2rest/constants.py`
is absent from the source tree; only distinctness matters). -/
def SRC_JSON : String := "_json"

/-- See `SRC_JSON`. -/
def SRC_ARGS : String := "_args"

/-- See `SRC_JSON`. -/
def SRC_ROUTE : String := "_route"

/-- The reserved attribute-path argument name `ATTR`; `py2rest.py` pops
`kwargs.pop('attr', None)`, so `ATTR = 'attr'`. -/
def ATTR : String := "attr"

/-- Modelled from the spec: the reserved "help" argument name `_HELP`
(its defining module `py2api/constants.py` is absent from the source
tree); only its distinctness from ordinary argument names matters. -/
def HELP_ARG : String := "_help"

/-- Modelled from the spec: the reserved output-mode argument name
`_OUTPUT_TRANS` (same absent module as `HELP_ARG`). -/
def MODE_ARG : String := "_output_trans"

/-- Python exceptions reaching the dispatch boundary. -/
inductive PyErr where
  | keyError (k : String)
  | valueError
  | typeError
  | missingAttribute
  | forbiddenAttribute (attr : PyVal)

/-- A flask-style request: `request.args` (query) and `request.json`
(body); `get_empty_none(request, "json", {})` turns an absent/`None` body
into `{}`, so both are plain dicts here. -/
structure PyRequest where
  args : Dict
  json : Dict

/-- `get_request_data_from_source`: `_json` and `_args` are recognized,
anything else raises `ValueError`. -/
def getRequestDataFromSource (request : PyRequest) (source : String) :
    Except PyErr (List (String × PyVal)) :=
  if source == SRC_JSON then .ok request.json
  else if source == SRC_ARGS then .ok request.args
  else .error .valueError

/-- `InputTrans._get_attr_from_request`: the `attr` route argument when
present, else `request.args[ATTR]` — a plain indexing that raises
`KeyError` when the query has no `attr`. -/
def getAttrFromRequest (routeArgs : Dict) (request : PyRequest) :
    Except PyErr PyVal :=
  match lookupA routeArgs ATTR with
  | some v => .ok v
  | none =>
    match lookupA request.args ATTR with
    | some v => .ok v
    | none => .error (.keyError ATTR)

/-- `input_dict[argname] = trans_func(val)`: applying a found trans spec;
a non-callable found spec raises `TypeError` when called. -/
def applyFound (tenv : Nat → PyVal → PyVal) (ts : TransSpec) (val : PyVal) :
    Except PyErr PyVal :=
  match ts with
  | .func n => .ok (tenv n val)
  | _ => .error .typeError

/-- The inner loop of `InputTrans.__call__`: for each `(argname, val)` pair
of one source (skipping the reserved `attr` name), convert through the
resolved trans function, or store the raw value. -/
def collectPairs (tenv : Nat → PyVal → PyVal) (spec : TransSpec)
    (attrV : PyVal) (source : String) :
    List (String × PyVal) → Dict → Except PyErr Dict
  | [], d => .ok d
  | (argname, val) :: rest, d =>
    if argname == ATTR then collectPairs tenv spec attrV source rest d
    else
      match py2apiSearch attrV argname val spec (some source) with
      | some ts => do
        let v ← applyFound tenv ts val
        collectPairs tenv spec attrV source rest (dictSet d argname v)
      | none => collectPairs tenv spec attrV source rest (dictSet d argname val)

/-- The outer loop of `InputTrans.__call__`: sources in configured order;
`_route` data is the route arguments, otherwise
`get_request_data_from_source`. -/
def collectSources (tenv : Nat → PyVal → PyVal) (spec : TransSpec)
    (attrV : PyVal) (request : PyRequest) (routeArgs : Dict) :
    List String → Dict → Except PyErr Dict
  | [], d => .ok d
  | source :: more, d => do
    let pairs ←
      if source == SRC_ROUTE then .ok routeArgs
      else getRequestDataFromSource request source
    let d' ← collectPairs tenv spec attrV source pairs d
    collectSources tenv spec attrV request routeArgs more d'

/-- The configuration of an `InputTrans` instance.  `dflt` maps an
attribute name to the heap cell holding its defaults dict (`self.dflt_spec`
values are shared mutable dicts). -/
structure InTransCfg where
  transSpec : TransSpec
  dflt : List (String × Nat)
  sources : List String
  tenv : Nat → PyVal → PyVal

/-- The heap of mutable dict cells. -/
abbrev Heap := List Dict

/-- Dereference a heap cell. -/
def heapGet (h : Heap) (p : Nat) : Dict := (List.get? h p).getD []

/-- Write a heap cell. -/
def heapSet (h : Heap) (p : Nat) (d : Dict) : Heap := List.set h p d

/-- `InputTrans.__call__`: resolve the attribute, start from
`self.dflt_spec.get(attr, {})` — the stored dict itself, not a copy —
collect and convert all source data into it, pop the reserved `attr` key,
and return `(attr, input_dict)`; the returned pointer is the cell the
caller will keep mutating.  (On an exception the partially mutated state is
not modelled; the only claim about an error path concerns the attribute
lookup, which precedes every mutation.) -/
def inputTransCall (cfg : InTransCfg) (heap : Heap) (request : PyRequest)
    (routeArgs : Dict) : Except PyErr (PyVal × Nat × Heap) := do
  -- `attr = self._get_attr_from_request(request)`: the call site forwards
  -- no route arguments, so the method's route-args branch is dead here and
  -- the attribute always comes from `request.args`.
  let attrV ← getAttrFromRequest [] request
  let (ptr, heap1, d0) :=
    match attrV with
    | pyStr a =>
      match lookupA cfg.dflt a with
      | some p => (p, heap, heapGet heap p)
      | none => (heap.length, heap ++ [[]], ([] : Dict))
    | _ => (heap.length, heap ++ [[]], ([] : Dict))
  let d ← collectSources cfg.tenv cfg.transSpec attrV request routeArgs
    cfg.sources d0
  return (attrV, ptr, heapSet heap1 ptr (dictPop d ATTR))

/-! ## The dispatch controller: `ObjWrap.__call__`, `py2api/obj_wrap.py`

Lines 128-185, with `ObjWrap.obj_attr` (102-126) and
`get_attr_recursively` of `py2api/util.py` (175-181). -/

/-- `get_attr_recursively(obj, attr)`'s walk: follow each dot-separated
segment by attribute lookup; `none` is the `AttributeError` case. -/
def walkAttr : PyVal → List String → Option PyVal
  | obj, [] => some obj
  | pyObj attrs, seg :: rest =>
    match lookupA attrs seg with
    | some v => walkAttr v rest
    | none => none
  | _, _ :: _ => none

/-- Python `s.split('.')` (note `''.split('.') == ['']`).
(`String.splitOn` does not reduce well in the kernel, so the split is
spelled out over the character list.) -/
def splitDotsAux : List Char → List Char → List String
  | [], acc => [String.mk acc.reverse]
  | x :: xs, acc =>
    if x == '.' then String.mk acc.reverse :: splitDotsAux xs []
    else splitDotsAux xs (x :: acc)

/-- See `splitDotsAux`. -/
def splitDots (s : String) : List String := splitDotsAux s.toList []

/-- `get_attr_recursively(obj, attr)` as called by `obj_attr` (no explicit
default): the `try`/`except AttributeError` returns the default `None` on
any failure — including a non-string `attr`, whose `attr.split('.')`
raises inside the `try`. -/
def getAttrRecursivelyD (obj : PyVal) (attrV : PyVal) : PyVal :=
  match attrV with
  | pyStr s => (walkAttr obj (splitDots s)).getD pyNone
  | _ => pyNone

/-- The pops
`obj_kwargs = {k: input_data.pop(k) for k in self.obj_constructor_arg_names if k in input_data}`:
the extracted constructor kwargs (in `ctorArgNames` order) and the
remaining dict. -/
def popMany : List String → Dict → Dict × Dict
  | [], d => ([], d)
  | n :: rest, d =>
    match lookupA d n with
    | some v =>
      let (kw, d') := popMany rest (dictPop d n)
      ((n, v) :: kw, d')
    | none => popMany rest d

/-- The configuration of an `ObjWrap` instance.  `ctor` is
`self.obj_constructor` (always invoked as `obj_constructor(**obj_spec)`
here, since `__call__` always builds `obj_spec` as a dict); `fenv`
interprets callable leaves; `outTrans` is `self.output_trans` applied as
`output_trans(result, attr, output_trans=mode)`; `helpText` stands for
`enhanced_docstr` (pure introspental plumbing). -/
structure WrapCfg where
  inCfg : InTransCfg
  ctorArgNames : List String
  perm : PyVal → Bool
  ctor : Dict → PyVal
  fenv : Nat → Dict → PyVal
  outTrans : PyVal → PyVal → PyVal → PyVal
  helpText : PyVal → PyVal

/-- `ObjWrap.obj_attr`: construct the root object from the (dict)
constructor kwargs, then resolve the dotted path with the non-throwing
helper. -/
def objAttrFun (cfg : WrapCfg) (objKwargs : Dict) (attrV : PyVal) : PyVal :=
  getAttrRecursivelyD (cfg.ctor objKwargs) attrV

/-- The outcome of a dispatch: the returned payload or the raised
exception, the number of root-constructor invocations, and the final
heap. -/
structure DispatchOut where
  result : Except PyErr PyVal
  ctorCalls : Nat
  heap : Heap

/-- `ObjWrap.__call__`: input translation, the `attr is None` guard, the
permission gate, the constructor-kwargs pops, root construction and path
walk, the reserved `_help` and output-mode pops, the call-or-property
step, and the output transform. -/
def objWrapCall (cfg : WrapCfg) (heap : Heap) (request : PyRequest)
    (routeArgs : Dict) : DispatchOut :=
  match inputTransCall cfg.inCfg heap request routeArgs with
  | .error e => ⟨.error e, 0, heap⟩
  | .ok (attrV, ptr, heap1) =>
    match attrV with
    | pyNone => ⟨.error .missingAttribute, 0, heap1⟩
    | attrV =>
      if !cfg.perm attrV then ⟨.error (.forbiddenAttribute attrV), 0, heap1⟩
      else
        let cell := heapGet heap1 ptr
        let (objKwargs, cell1) := popMany cfg.ctorArgNames cell
        let target := objAttrFun cfg objKwargs attrV
        let (helpV, cell2) := dictPopGet cell1 HELP_ARG
        if pyTruthy helpV then
          ⟨.ok (cfg.helpText target), 1, heapSet heap1 ptr cell2⟩
        else
          let (modeV, cell3) := dictPopGet cell2 MODE_ARG
          let result :=
            match target with
            | pyFunc n => cfg.fenv n cell3
            | v => v
          ⟨.ok (cfg.outTrans result attrV modeV), 1, heapSet heap1 ptr cell3⟩

/-! ## Claim theorems -/

/-- C5: an attribute matcher built from an empty specification (`None`, an
empty list/tuple, an empty dict — and likewise an empty pattern string)
permits nothing: `PermissibleAttr.__call__` is `False` on every path, since
`__init__` replaces a falsy spec by `None` and the call site is
`bool(self.permissible_attr_pattern is not None and ...)`. -/
theorem claim_C5 (p : String) :
    permitsUtil .noSpec p = some false ∧
    permitsUtil (.listSpec []) p = some false ∧
    permitsUtil (.dictSpec none none) p = some false ∧
    permitsUtil (.strSpec "") p = some false :=
  ⟨rfl, rfl, rfl, rfl⟩

/-- C3: anchoring of include patterns.  The `py2rest.py`
`get_pattern_from_attr_permissions_dict` behaves as the claim states: with
include list `["a.b"]`, `"a.b"` is permitted and `"a.b.c"` is not; with
`["a.b.*"]` both are.  But the `py2api/util.py` variant — the one compiled
into `PermissibleAttr` — violates the claim: by Python precedence its body
`re.compile(incls + '(?!%s)' % '|'.join(excls) if excls else '')` compiles
the empty pattern whenever there is no exclude list, so a matcher built
from include `["a.b"]` permits `"a.b.c"` (and everything else).  On the
doctest's own permissions dict it permits `"i.want.this.too"`, which the
doctest asserts to be `False` (while the `py2rest.py` variant does produce
`False` there). -/
theorem claim_C3 :
    permitsPy2rest ["a.b"] [] "a.b" = some true ∧
    permitsPy2rest ["a.b"] [] "a.b.c" = some false ∧
    permitsPy2rest ["a.b.*"] [] "a.b" = some true ∧
    permitsPy2rest ["a.b.*"] [] "a.b.c" = some true ∧
    permitsUtil (.listSpec ["a.b"]) "a.b" = some true ∧
    permitsUtil (.listSpec ["a.b"]) "a.b.c" = some true ∧
    permitsUtil (.dictSpec (some ["i.want.this", "he.wants.that"])
        (some ["i.want", "he.wants", "and.definitely.not.this"]))
      "i.want.this.too" = some true ∧
    permitsPy2rest ["i.want.this", "he.wants.that"]
      ["i.want", "he.wants", "and.definitely.not.this"]
      "i.want.this.too" = some false := by
  refine ⟨?_, ?_, ?_, ?_, ?_, ?_, ?_, ?_⟩ <;> decide

/-- C4: exclude precedence.  Both `get_pattern_from_attr_permissions_dict`
variants append the negative lookahead *after* the union of includes
(`incls + '(?!...)'`), so the lookahead is checked at the position where
the include match ends, where it is vacuous: with include `["a.*"]` and
exclude `["a.b"]` the path `"a.b"` is permitted by both variants, although
the claim (and the intent of the exclude-correction code) says a matching
exclude must block.  `permits("a.c")` is `true` as claimed. -/
theorem claim_C4 :
    permitsPy2rest ["a.*"] ["a.b"] "a.b" = some true ∧
    permitsPy2rest ["a.*"] ["a.b"] "a.c" = some true ∧
    permitsUtil (.dictSpec (some ["a.*"]) (some ["a.b"])) "a.b" = some true ∧
    permitsUtil (.dictSpec (some ["a.*"]) (some ["a.b"])) "a.c" = some true := by
  refine ⟨?_, ?_, ?_, ?_⟩ <;> decide

/-- C1: resolution order of the conditional-spec resolvers.  The
`py2rest/input_trans.py` resolver (first block of facts) and the
`output_trans.py` resolver (last block) behave as claimed: source (resp.
output-mode) only when present, then attribute, then argument name (input
case), then value type, then fallback, first non-`NOT_FOUND` result wins; a
callable spec returns immediately and an empty dict gives `NOT_FOUND`.  But
the `py2api/py2rest/input_trans.py` resolver violates the claim twice
(middle block): it consults no `_valtype` axis at all (although its own
docstring describes one), and when an `_ELSE` key is present it reassigns
`trans_func` to the `_else` search result, discarding an already-found
`_attr`/`_argname` resolution — `{_attr: {'a': f0}, _else: f1}` at
attribute `'a'` resolves to `f1`, not `f0`. -/
theorem claim_C1 :
    -- the py2rest/input_trans.py resolver: the claimed cascade
    (pyrestSearch (.pyStr "a") "x" (.pyStr "v")
        (.node [("S", .func 10)] [("a", .func 11)] [("x", .func 12)]
          [(.strT, .func 13)] (some (.func 14))) (some "S") = some (.func 10)) ∧
    (pyrestSearch (.pyStr "a") "x" (.pyStr "v")
        (.node [("S", .func 10)] [("a", .func 11)] [("x", .func 12)]
          [(.strT, .func 13)] (some (.func 14))) (some "T") = some (.func 11)) ∧
    (pyrestSearch (.pyStr "a") "x" (.pyStr "v")
        (.node [("S", .func 10)] [("a", .func 11)] [("x", .func 12)]
          [(.strT, .func 13)] (some (.func 14))) none = some (.func 11)) ∧
    (pyrestSearch (.pyStr "b") "x" (.pyStr "v")
        (.node [("S", .func 10)] [("a", .func 11)] [("x", .func 12)]
          [(.strT, .func 13)] (some (.func 14))) none = some (.func 12)) ∧
    (pyrestSearch (.pyStr "b") "y" (.pyStr "v")
        (.node [("S", .func 10)] [("a", .func 11)] [("x", .func 12)]
          [(.strT, .func 13)] (some (.func 14))) none = some (.func 13)) ∧
    (pyrestSearch (.pyStr "b") "y" (.pyInt 5)
        (.node [("S", .func 10)] [("a", .func 11)] [("x", .func 12)]
          [(.strT, .func 13)] (some (.func 14))) none = some (.func 14)) ∧
    (pyrestSearch (.pyStr "b") "y" (.pyInt 5)
        (.node [("S", .func 10)] [("a", .func 11)] [("x", .func 12)]
          [(.strT, .func 13)] none) none = none) ∧
    (pyrestSearch (.pyStr "a") "x" (.pyStr "v") (.func 7) (some "S") =
      some (.func 7)) ∧
    (pyrestSearch (.pyStr "a") "x" (.pyStr "v") (.node [] [] [] [] none)
      (some "S") = none) ∧
    -- the py2api/py2rest/input_trans.py resolver: the two divergences
    (py2apiSearch (.pyStr "a") "x" (.pyStr "v")
        (.node [] [("a", .func 0)] [] [] (some (.func 1))) none =
      some (.func 1)) ∧
    (pyrestSearch (.pyStr "a") "x" (.pyStr "v")
        (.node [] [("a", .func 0)] [] [] (some (.func 1))) none =
      some (.func 0)) ∧
    (py2apiSearch (.pyStr "b") "y" (.pyStr "v")
        (.node [] [] [] [(.strT, .func 13)] none) none = none) ∧
    (pyrestSearch (.pyStr "b") "y" (.pyStr "v")
        (.node [] [] [] [(.strT, .func 13)] none) none = some (.func 13)) ∧
    (py2apiSearch (.pyStr "a") "x" (.pyStr "v") (.func 7) none =
      some (.func 7)) ∧
    (py2apiSearch (.pyStr "a") "x" (.pyStr "v") (.node [] [] [] [] none)
      none = none) ∧
    -- the output_trans.py resolver: the claimed cascade on its axes
    (outputSearch (.pyStr "a") (.pyStr "v")
        (.node [("csv", .func 20)] [("a", .func 21)] [(.strT, .func 22)]
          (some (.func 23))) (some "csv") = some (.func 20)) ∧
    (outputSearch (.pyStr "a") (.pyStr "v")
        (.node [("csv", .func 20)] [("a", .func 21)] [(.strT, .func 22)]
          (some (.func 23))) (some "x") = some (.func 21)) ∧
    (outputSearch (.pyStr "a") (.pyStr "v")
        (.node [("csv", .func 20)] [("a", .func 21)] [(.strT, .func 22)]
          (some (.func 23))) none = some (.func 21)) ∧
    (outputSearch (.pyStr "b") (.pyStr "v")
        (.node [("csv", .func 20)] [("a", .func 21)] [(.strT, .func 22)]
          (some (.func 23))) none = some (.func 22)) ∧
    (outputSearch (.pyStr "b") (.pyInt 3)
        (.node [("csv", .func 20)] [("a", .func 21)] [(.strT, .func 22)]
          (some (.func 23))) none = some (.func 23)) ∧
    (outputSearch (.pyStr "b") (.pyInt 3)
        (.node [("csv", .func 20)] [("a", .func 21)] [(.strT, .func 22)]
          none) none = none) ∧
    (outputSearch (.pyStr "a") (.pyStr "v") (.func 9) none = some (.func 9)) ∧
    (outputSearch (.pyStr "a") (.pyStr "v") (.node [] [] [] none) none =
      none) :=
  ⟨rfl, rfl, rfl, rfl, rfl, rfl, rfl, rfl, rfl, rfl, rfl, rfl, rfl, rfl,
   rfl, rfl, rfl, rfl, rfl, rfl, rfl, rfl, rfl⟩

/-- The `_valtype` loop of the input resolver is the first
`isinstance`-matching entry in declaration order. -/
theorem valtypeFirst_eq_find (entries : List (PyType × TransSpec))
    (val : PyVal) :
    valtypeFirst entries val =
      (entries.find? fun p => pyIsInstance val p.1).map Prod.snd := by
  induction entries with
  | nil => rfl
  | cons e rest ih =>
    by_cases h : pyIsInstance val e.1
    · simp [valtypeFirst, List.find?_cons, h]
    · simp [valtypeFirst, List.find?_cons, h, ih]

/-- The `_valtype` loop of the output resolver is the first
`isinstance`-matching entry in declaration order. -/
theorem outValtypeFirst_eq_find (entries : List (PyType × OutSpec))
    (val : PyVal) :
    outValtypeFirst entries val =
      (entries.find? fun p => pyIsInstance val p.1).map Prod.snd := by
  induction entries with
  | nil => rfl
  | cons e rest ih =>
    by_cases h : pyIsInstance val e.1
    · simp [outValtypeFirst, List.find?_cons, h]
    · simp [outValtypeFirst, List.find?_cons, h, ih]

/-- C9: when resolution reaches the `_valtype` axis (the source, attribute
and argument-name axes found nothing), both the input resolver of
`py2rest/input_trans.py` and the output resolver of `output_trans.py`
return the spec of the *first* entry, in declaration order, whose type
`isinstance`-matches the runtime value, falling through to `_else` (resp.
`NOT_FOUND`) only when no entry matches.  Matching is subtype-compatible:
a `bool` value matches an `int` entry (`bool` is a subclass of `int`), and
with entries `[(int, f0), (bool, f1)]` a `bool` value resolves to `f0`
even though an exact-type entry occurs later. -/
theorem claim_C9 :
    (∀ (attrV : PyVal) (argname : String) (val : PyVal)
        (entries : List (PyType × TransSpec)) (els : Option TransSpec)
        (source : Option String),
      pyrestSearch attrV argname val (.node [] [] [] entries els) source =
        match entries.find? (fun p => pyIsInstance val p.1) with
        | some p => some p.2
        | none =>
          match els with
          | some e => pyrestSearch attrV argname val e source
          | none => none) ∧
    (∀ (attrV val : PyVal) (entries : List (PyType × OutSpec))
        (els : Option OutSpec) (ot : Option String),
      outputSearch attrV val (.node [] [] entries els) ot =
        match entries.find? (fun p => pyIsInstance val p.1) with
        | some p => some p.2
        | none =>
          match els with
          | some e => outputSearch attrV val e none
          | none => none) ∧
    pyIsInstance (.pyBool true) .intT = true ∧
    (pyrestSearch (.pyStr "a") "x" (.pyBool true)
        (.node [] [] [] [(.intT, .func 0), (.boolT, .func 1)] none) none =
      some (.func 0)) ∧
    (outputSearch (.pyStr "a") (.pyBool true)
        (.node [] [] [(.intT, .func 5), (.boolT, .func 6)] none) none =
      some (.func 5)) := by
  refine ⟨?_, ?_, rfl, rfl, rfl⟩
  · intro attrV argname val entries els source
    cases entries with
    | nil =>
      cases els with
      | none => cases source <;> cases attrV <;> rfl
      | some e => cases source <;> cases attrV <;> rfl
    | cons p rest =>
      have hv := valtypeFirst_eq_find (p :: rest) val
      cases hf : List.find? (fun q => pyIsInstance val q.1) (p :: rest) with
      | none =>
        have hv2 : valtypeFirst (p :: rest) val = none := by rw [hv, hf]; rfl
        cases els with
        | none =>
          cases source <;> cases attrV <;>
            simp [pyrestSearch, pyrestField, TransSpec.isEmptyDict, hf, hv2]
        | some e =>
          cases source <;> cases attrV <;>
            simp [pyrestSearch, pyrestField, TransSpec.isEmptyDict, hf, hv2]
      | some q =>
        have hv2 : valtypeFirst (p :: rest) val = some q.2 := by rw [hv, hf]; rfl
        cases els with
        | none =>
          cases source <;> cases attrV <;>
            simp [pyrestSearch, pyrestField, TransSpec.isEmptyDict, hf, hv2]
        | some e =>
          cases source <;> cases attrV <;>
            simp [pyrestSearch, pyrestField, TransSpec.isEmptyDict, hf, hv2]
  · intro attrV val entries els ot
    cases entries with
    | nil =>
      cases els with
      | none => cases ot <;> cases attrV <;> rfl
      | some e => cases ot <;> cases attrV <;> rfl
    | cons p rest =>
      have hv := outValtypeFirst_eq_find (p :: rest) val
      cases hf : List.find? (fun q => pyIsInstance val q.1) (p :: rest) with
      | none =>
        have hv2 : outValtypeFirst (p :: rest) val = none := by rw [hv, hf]; rfl
        cases els with
        | none =>
          cases ot <;> cases attrV <;>
            simp [outputSearch, outputField, OutSpec.isEmptyDict, hf, hv2]
        | some e =>
          cases ot <;> cases attrV <;>
            simp [outputSearch, outputField, OutSpec.isEmptyDict, hf, hv2]
      | some q =>
        have hv2 : outValtypeFirst (p :: rest) val = some q.2 := by rw [hv, hf]; rfl
        cases els with
        | none =>
          cases ot <;> cases attrV <;>
            simp [outputSearch, outputField, OutSpec.isEmptyDict, hf, hv2]
        | some e =>
          cases ot <;> cases attrV <;>
            simp [outputSearch, outputField, OutSpec.isEmptyDict, hf, hv2]

/-- `Except` bind on an error propagates the error. -/
theorem bindE_error {ε α β : Type} (e : ε) (f : α → Except ε β) :
    (Except.error e >>= f) = Except.error e := rfl

/-- `Except` bind on a success applies the continuation. -/
theorem bindE_ok {ε α β : Type} (a : α) (f : α → Except ε β) :
    (Except.ok a >>= f) = f a := rfl

/-- Writing a key makes it the binding found by lookup. -/
theorem lookupA_dictSet_self (d : Dict) (k : String) (v : PyVal) :
    lookupA (dictSet d k v) k = some v := by
  induction d with
  | nil => simp [dictSet, lookupA]
  | cons p rest ih =>
    by_cases h : p.1 == k
    · simp [dictSet, lookupA, h]
    · simp only [dictSet]
      rw [show (p.1 == k) = false by simpa using h]
      simpa [lookupA, h] using ih

/-- Writing one key leaves the binding of a different key unchanged. -/
theorem lookupA_dictSet_ne (d : Dict) (k k' : String) (v : PyVal)
    (h : k' ≠ k) : lookupA (dictSet d k' v) k = lookupA d k := by
  induction d with
  | nil => simp [dictSet, lookupA, h]
  | cons p rest ih =>
    by_cases hp : p.1 == k'
    · have : ¬(p.1 == k) := by
        intro hc
        exact h (by
          have h1 : p.1 = k' := by simpa using hp
          have h2 : p.1 = k := by simpa using hc
          rw [← h1, h2])
      simp [dictSet, lookupA, hp, this]
    · simp only [dictSet]
      rw [show (p.1 == k') = false by simpa using hp]
      by_cases hk : p.1 == k
      · simp [lookupA, hk]
      · simpa [lookupA, hk] using ih

/-- A pair list containing no binding for `x` leaves `x`'s collected value
unchanged. -/
theorem collectPairs_lookup_of_not_mem (tenv : Nat → PyVal → PyVal)
    (spec : TransSpec) (attrV : PyVal) (source : String)
    (pairs : List (String × PyVal)) (d d' : Dict) (x : String)
    (hsucc : collectPairs tenv spec attrV source pairs d = .ok d')
    (hx : ∀ p ∈ pairs, p.1 ≠ x) :
    lookupA d' x = lookupA d x := by
  induction pairs generalizing d with
  | nil =>
    simp only [collectPairs] at hsucc
    cases hsucc
    rfl
  | cons p rest ih =>
    have hxp : p.1 ≠ x := hx p (List.mem_cons_self p rest)
    have hxrest : ∀ q ∈ rest, q.1 ≠ x := fun q hq => hx q (List.mem_cons_of_mem p hq)
    rcases p with ⟨argname, val⟩
    by_cases hA : argname == ATTR
    · simp only [collectPairs, hA, if_pos] at hsucc
      exact ih d hsucc hxrest
    · simp only [collectPairs] at hsucc
      rw [show (argname == ATTR) = false by simpa using hA] at hsucc
      simp only [Bool.false_eq_true, if_false] at hsucc
      cases hs : py2apiSearch attrV argname val spec (some source) with
      | none =>
        rw [hs] at hsucc
        have := ih (dictSet d argname val) hsucc hxrest
        rw [this, lookupA_dictSet_ne d x argname val hxp]
      | some ts =>
        rw [hs] at hsucc
        cases ts with
        | func n =>
          simp only [applyFound, bindE_ok] at hsucc
          have := ih (dictSet d argname (tenv n val)) hsucc hxrest
          rw [this, lookupA_dictSet_ne d x argname (tenv n val) hxp]
        | junk t => simp [applyFound, bindE_error] at hsucc
        | node a b c e f => simp [applyFound, bindE_error] at hsucc

/-- Processing a pair list splits at an append. -/
theorem collectPairs_append (tenv : Nat → PyVal → PyVal) (spec : TransSpec)
    (attrV : PyVal) (source : String) (l1 l2 : List (String × PyVal))
    (d : Dict) :
    collectPairs tenv spec attrV source (l1 ++ l2) d =
      collectPairs tenv spec attrV source l1 d >>=
        collectPairs tenv spec attrV source l2 := by
  induction l1 generalizing d with
  | nil => simp [collectPairs, bindE_ok]
  | cons p rest ih =>
    rcases p with ⟨argname, val⟩
    by_cases hA : argname == ATTR
    · simp only [List.cons_append, collectPairs, hA, if_pos]
      exact ih d
    · simp only [List.cons_append, collectPairs]
      rw [show (argname == ATTR) = false by simpa using hA]
      simp only [Bool.false_eq_true, if_false]
      cases hs : py2apiSearch attrV argname val spec (some source) with
      | none => exact ih (dictSet d argname val)
      | some ts =>
        cases ts with
        | func n => simpa [applyFound, bindE_ok] using ih (dictSet d argname (tenv n val))
        | junk t => simp [applyFound, bindE_error]
        | node a b c e f => simp [applyFound, bindE_error]

/-- The value a source pair produces for the collected mapping: the raw
value, or its conversion when the resolver finds a trans function. -/
def processedVal (tenv : Nat → PyVal → PyVal) (spec : TransSpec)
    (attrV : PyVal) (source : String) (argname : String) (val : PyVal) :
    PyVal :=
  match py2apiSearch attrV argname val spec (some source) with
  | some (.func n) => tenv n val
  | _ => val

/-- After processing a pair list whose last binding of `x` is `(x, vB)`,
the collected value of `x` is `processedVal` of `vB`. -/
theorem collectPairs_last (tenv : Nat → PyVal → PyVal) (spec : TransSpec)
    (attrV : PyVal) (source : String) (l1 l2 : List (String × PyVal))
    (x : String) (vB : PyVal) (d d' : Dict)
    (hxA : x ≠ ATTR)
    (hno : ∀ p ∈ l2, p.1 ≠ x)
    (hsucc : collectPairs tenv spec attrV source (l1 ++ (x, vB) :: l2) d =
      .ok d') :
    lookupA d' x = some (processedVal tenv spec attrV source x vB) := by
  rw [collectPairs_append] at hsucc
  cases h1 : collectPairs tenv spec attrV source l1 d with
  | error e => rw [h1, bindE_error] at hsucc; exact absurd hsucc (by simp)
  | ok d1 =>
    rw [h1, bindE_ok] at hsucc
    simp only [collectPairs] at hsucc
    rw [show (x == ATTR) = false by simpa using hxA] at hsucc
    simp only [Bool.false_eq_true, if_false] at hsucc
    unfold processedVal
    cases hs : py2apiSearch attrV x vB spec (some source) with
    | none =>
      rw [hs] at hsucc
      have := collectPairs_lookup_of_not_mem tenv spec attrV source l2
        (dictSet d1 x vB) d' x hsucc hno
      rw [this, lookupA_dictSet_self]
    | some ts =>
      rw [hs] at hsucc
      cases ts with
      | func n =>
        simp only [applyFound, bindE_ok] at hsucc
        have := collectPairs_lookup_of_not_mem tenv spec attrV source l2
          (dictSet d1 x (tenv n vB)) d' x hsucc hno
        rw [this, lookupA_dictSet_self]
      | junk t => simp [applyFound, bindE_error] at hsucc
      | node a b c e f => simp [applyFound, bindE_error] at hsucc

/-- C2: last source wins.  With the configured source order
`(_json, _args)` — source A then source B — whatever the `_json` body `j`
supplies for an argument `x`, the mapping collected by
`InputTrans.__call__` binds `x` to the value produced from the *last*
binding of `x` in the `_args` source (its raw value, or its conversion
when a trans function resolves): later sources override earlier ones. -/
theorem claim_C2 (tenv : Nat → PyVal → PyVal) (spec : TransSpec)
    (attrV : PyVal) (j a1 a2 routeArgs : Dict) (x : String) (vB : PyVal)
    (d0 d' : Dict)
    (hxA : x ≠ ATTR)
    (hno : ∀ p ∈ a2, p.1 ≠ x)
    (hsucc : collectSources tenv spec attrV ⟨a1 ++ (x, vB) :: a2, j⟩
      routeArgs [SRC_JSON, SRC_ARGS] d0 = .ok d') :
    lookupA d' x = some (processedVal tenv spec attrV SRC_ARGS x vB) := by
  have hunfold : collectSources tenv spec attrV ⟨a1 ++ (x, vB) :: a2, j⟩
      routeArgs [SRC_JSON, SRC_ARGS] d0 =
      collectPairs tenv spec attrV SRC_JSON j d0 >>=
        (fun d1 =>
          collectPairs tenv spec attrV SRC_ARGS (a1 ++ (x, vB) :: a2)
            d1 >>= (fun d2 => Except.ok d2)) := rfl
  rw [hunfold] at hsucc
  cases h1 : collectPairs tenv spec attrV SRC_JSON j d0 with
  | error e => rw [h1, bindE_error] at hsucc; exact absurd hsucc (by simp)
  | ok d1 =>
    rw [h1, bindE_ok] at hsucc
    cases h2 : collectPairs tenv spec attrV SRC_ARGS (a1 ++ (x, vB) :: a2) d1 with
    | error e => rw [h2, bindE_error] at hsucc; exact absurd hsucc (by simp)
    | ok d2 =>
      rw [h2, bindE_ok] at hsucc
      cases hsucc
      exact collectPairs_last tenv spec attrV SRC_ARGS a1 a2 x vB d1 _ hxA hno h2

/-- C2 witness: source A (`_json`) supplies `x = 1`, source B (`_args`)
supplies `x = 2`, no conversion configured; the collected `x` is B's
value `2`. -/
theorem claim_C2_witness :
    lookupA [("x", PyVal.pyInt 2)] "x" = some (PyVal.pyInt 2) := by
  have h := claim_C2 (fun _ v => v) (.junk false) (.pyStr "f")
    [("x", .pyInt 1)] [] [] [] "x" (.pyInt 2) [] [("x", .pyInt 2)]
    (by decide) (by simp) rfl
  exact h

/-- C6: when the request supplies no attribute path (no `attr` route
argument and no `attr` query argument), the dispatch raises — but it
raises the `KeyError` from `request.args[ATTR]` inside
`InputTrans._get_attr_from_request`, *not* `MissingAttribute`: the
`if attr is None: raise MissingAttribute()` guard in `ObjWrap.__call__`
is unreachable on this path, because the default input translator raises
before returning. -/
theorem claim_C6 (cfg : WrapCfg) (heap : Heap) (request : PyRequest)
    (routeArgs : Dict)
    (h1 : lookupA routeArgs ATTR = none)
    (h2 : lookupA request.args ATTR = none) :
    (objWrapCall cfg heap request routeArgs).result =
      .error (.keyError ATTR) ∧
    (objWrapCall cfg heap request routeArgs).result ≠
      .error .missingAttribute := by
  have hattr : getAttrFromRequest [] request =
      .error (.keyError ATTR) := by
    unfold getAttrFromRequest
    simp only [lookupA]
    rw [h2]
  have hin : inputTransCall cfg.inCfg heap request routeArgs =
      .error (.keyError ATTR) := by
    unfold inputTransCall
    rw [hattr, bindE_error]
  have hres : (objWrapCall cfg heap request routeArgs).result =
      .error (.keyError ATTR) := by
    unfold objWrapCall
    rw [hin]
  exact ⟨hres, by rw [hres]; simp⟩

/-- C6 witness: an empty request (no query arguments, no body, no route
arguments) dispatched through an `ObjWrap` with an empty trans spec
raises `KeyError('attr')`. -/
theorem claim_C6_witness :
    (objWrapCall
      ⟨⟨.node [] [] [] [] none, [], [SRC_JSON, SRC_ARGS], fun _ v => v⟩,
        [], (fun _ => true), (fun _ => .pyObj []), (fun _ _ => .pyNone),
        (fun r _ _ => r), (fun _ => .pyNone)⟩
      [] ⟨[], []⟩ []).result = .error (.keyError ATTR) :=
  (claim_C6 _ [] ⟨[], []⟩ [] rfl rfl).1

/-- C7: when the input translation yields an attribute (not `None`) that
fails the permission predicate, the dispatch raises
`ForbiddenAttribute(attr)` and the root-object constructor is never
invoked (zero constructor calls): the permission gate in
`ObjWrap.__call__` precedes `obj_attr`, the only construction site. -/
theorem claim_C7 (cfg : WrapCfg) (heap : Heap) (request : PyRequest)
    (routeArgs : Dict) (attrV : PyVal) (ptr : Nat) (heap' : Heap)
    (hin : inputTransCall cfg.inCfg heap request routeArgs =
      .ok (attrV, ptr, heap'))
    (hnn : attrV ≠ .pyNone)
    (hperm : cfg.perm attrV = false) :
    (objWrapCall cfg heap request routeArgs).result =
      .error (.forbiddenAttribute attrV) ∧
    (objWrapCall cfg heap request routeArgs).ctorCalls = 0 := by
  have heq : objWrapCall cfg heap request routeArgs =
      ⟨.error (.forbiddenAttribute attrV), 0, heap'⟩ := by
    unfold objWrapCall
    rw [hin]
    cases attrV with
    | pyNone => exact absurd rfl hnn
    | pyBool b => simp [hperm]
    | pyInt n => simp [hperm]
    | pyStr s => simp [hperm]
    | pyList xs => simp [hperm]
    | pyObj attrs => simp [hperm]
    | pyFunc tag => simp [hperm]
  rw [heq]
  exact ⟨rfl, rfl⟩

/-- C7 witness: attribute path `"secret"` is supplied but the permission
predicate rejects it; the dispatch raises `ForbiddenAttribute("secret")`
and the constructor-invocation count is zero. -/
theorem claim_C7_witness :
    (objWrapCall
      ⟨⟨.node [] [] [] [] none, [], [SRC_JSON, SRC_ARGS], fun _ v => v⟩,
        [], (fun v => match v with | .pyStr s => s != "secret" | _ => false),
        (fun _ => .pyObj []), (fun _ _ => .pyNone),
        (fun r _ _ => r), (fun _ => .pyNone)⟩
      [] ⟨[("attr", .pyStr "secret")], []⟩ []).result =
        .error (.forbiddenAttribute (.pyStr "secret")) ∧
    (objWrapCall
      ⟨⟨.node [] [] [] [] none, [], [SRC_JSON, SRC_ARGS], fun _ v => v⟩,
        [], (fun v => match v with | .pyStr s => s != "secret" | _ => false),
        (fun _ => .pyObj []), (fun _ _ => .pyNone),
        (fun r _ _ => r), (fun _ => .pyNone)⟩
      [] ⟨[("attr", .pyStr "secret")], []⟩ []).ctorCalls = 0 :=
  claim_C7 _ [] ⟨[("attr", .pyStr "secret")], []⟩ [] (.pyStr "secret") 0 [[]]
    rfl (by simp) rfl

/-- C8 counterexample: a permitted attribute path `"a.b"` whose segment
`"b"` does not exist on the constructed root object (which has only
`"a"`) does *not* make the dispatch raise: `obj_attr` calls
`get_attr_recursively` without a default, the `AttributeError` is
swallowed and the default `None` is returned, `None` is not callable, and
the dispatch returns the output-transform of `None` as a success
payload. -/
theorem claim_C8_counterexample :
    (objWrapCall
      ⟨⟨.node [] [] [] [] none, [], [SRC_JSON, SRC_ARGS], fun _ v => v⟩,
        [], (fun _ => true), (fun _ => .pyObj [("a", .pyObj [])]),
        (fun _ _ => .pyNone), (fun r _ _ => r), (fun _ => .pyNone)⟩
      [] ⟨[("attr", .pyStr "a.b")], []⟩ []).result = .ok .pyNone ∧
    ∀ e, (objWrapCall
      ⟨⟨.node [] [] [] [] none, [], [SRC_JSON, SRC_ARGS], fun _ v => v⟩,
        [], (fun _ => true), (fun _ => .pyObj [("a", .pyObj [])]),
        (fun _ _ => .pyNone), (fun r _ _ => r), (fun _ => .pyNone)⟩
      [] ⟨[("attr", .pyStr "a.b")], []⟩ []).result ≠ .error e :=
  ⟨rfl, by intro e h; rw [show (objWrapCall
      ⟨⟨.node [] [] [] [] none, [], [SRC_JSON, SRC_ARGS], fun _ v => v⟩,
        [], (fun _ => true), (fun _ => .pyObj [("a", .pyObj [])]),
        (fun _ _ => .pyNone), (fun r _ _ => r), (fun _ => .pyNone)⟩
      [] ⟨[("attr", .pyStr "a.b")], []⟩ []).result = .ok .pyNone from rfl]
      at h; exact Except.noConfusion h⟩

/-- C8 amended: for a permitted string attribute path containing a
segment missing on the progressively-resolved object, the dispatch does
*not* surface an error: the non-throwing `get_attr_recursively` yields
its default `None` at the dispatch boundary, and (when the reserved help
argument is absent or falsy) the dispatch returns the output-transform of
`None` as a success payload. -/
theorem claim_C8_amended (cfg : WrapCfg) (heap : Heap) (request : PyRequest)
    (routeArgs : Dict) (a : String) (ptr : Nat) (heap' : Heap)
    (hin : inputTransCall cfg.inCfg heap request routeArgs =
      .ok (.pyStr a, ptr, heap'))
    (hperm : cfg.perm (.pyStr a) = true)
    (hwalk : walkAttr (cfg.ctor (popMany cfg.ctorArgNames
      (heapGet heap' ptr)).1) (splitDots a) = none)
    (hhelp : pyTruthy ((lookupA (popMany cfg.ctorArgNames
      (heapGet heap' ptr)).2 HELP_ARG).getD .pyNone) = false) :
    (objWrapCall cfg heap request routeArgs).result =
      .ok (cfg.outTrans .pyNone (.pyStr a)
        ((lookupA (dictPop (popMany cfg.ctorArgNames
          (heapGet heap' ptr)).2 HELP_ARG) MODE_ARG).getD .pyNone)) := by
  unfold objWrapCall
  rw [hin]
  rcases hpm : popMany cfg.ctorArgNames (heapGet heap' ptr) with ⟨kw, cell1⟩
  rw [hpm] at hwalk hhelp
  simp only at hwalk hhelp
  have htarget : objAttrFun cfg kw (.pyStr a) = .pyNone := by
    show (walkAttr (cfg.ctor kw) (splitDots a)).getD pyNone = pyNone
    rw [hwalk]
    rfl
  simp only [hperm, Bool.not_true, hpm, dictPopGet, htarget, hhelp]
  rfl

/-- C8 amended, witness: the counterexample's configuration satisfies the
amended claim's hypotheses, and the dispatch returns `.ok None`. -/
theorem claim_C8_witness :
    (objWrapCall
      ⟨⟨.node [] [] [] [] none, [], [SRC_JSON, SRC_ARGS], fun _ v => v⟩,
        [], (fun _ => true), (fun _ => .pyObj [("a", .pyObj [])]),
        (fun _ _ => .pyNone), (fun r _ _ => r), (fun _ => .pyNone)⟩
      [] ⟨[("attr", .pyStr "a.b")], []⟩ []).result = .ok .pyNone :=
  claim_C8_amended _ [] ⟨[("attr", .pyStr "a.b")], []⟩ [] "a.b" 0 [[]]
    rfl rfl rfl rfl

/-- C10: input collection aliases the stored defaults dict.  (1) When
`self.dflt_spec` holds a defaults dict for the requested attribute (heap
cell `p`), `InputTrans.__call__` returns *that* cell — `input_dict =
self.dflt_spec.get(attr, {})` is the stored dict, not a copy — starts
collection from its current contents, and leaves the cell overwritten
with the final collected mapping (every collected argument written into
the stored defaults).  (2) Reading the written cell back yields exactly
the collected mapping.  (3) Concretely, an argument `x=5` collected for
attribute `"f"` in one request persists in the defaults dict seen by a
later request for `"f"` that does not supply `x`.  (4) Concretely, a
constructor-argument name (`"user"`) and the reserved `_help` and
`_output_trans` names popped downstream by `ObjWrap.__call__` are removed
from the stored defaults cell. -/
theorem claim_C10 :
    (∀ (cfg : InTransCfg) (heap : Heap) (request : PyRequest)
        (routeArgs : Dict) (a : String) (p : Nat) (d' : Dict),
      lookupA cfg.dflt a = some p →
      getAttrFromRequest [] request = .ok (.pyStr a) →
      collectSources cfg.tenv cfg.transSpec (.pyStr a) request routeArgs
        cfg.sources (heapGet heap p) = .ok d' →
      inputTransCall cfg heap request routeArgs =
        .ok (.pyStr a, p, heapSet heap p (dictPop d' ATTR))) ∧
    (∀ (heap : Heap) (p : Nat) (d : Dict), p < heap.length →
      heapGet (heapSet heap p d) p = d) ∧
    (inputTransCall
        ⟨.node [] [] [] [] none, [("f", 0)], [SRC_JSON, SRC_ARGS],
          fun _ v => v⟩
        [[("y", .pyInt 1)]]
        ⟨[("attr", .pyStr "f"), ("x", .pyInt 5)], []⟩ [] =
      .ok (.pyStr "f", 0, [[("y", .pyInt 1), ("x", .pyInt 5)]])) ∧
    (inputTransCall
        ⟨.node [] [] [] [] none, [("f", 0)], [SRC_JSON, SRC_ARGS],
          fun _ v => v⟩
        [[("y", .pyInt 1), ("x", .pyInt 5)]]
        ⟨[("attr", .pyStr "f")], []⟩ [] =
      .ok (.pyStr "f", 0, [[("y", .pyInt 1), ("x", .pyInt 5)]])) ∧
    (objWrapCall
        ⟨⟨.node [] [] [] [] none, [("f", 0)], [SRC_JSON, SRC_ARGS],
            fun _ v => v⟩,
          ["user"], (fun _ => true), (fun _ => .pyObj [("f", .pyInt 9)]),
          (fun _ _ => .pyNone), (fun r _ _ => r), (fun _ => .pyNone)⟩
        [[("user", .pyStr "u"), (HELP_ARG, .pyBool false),
          (MODE_ARG, .pyNone)]]
        ⟨[("attr", .pyStr "f")], []⟩ [] =
      ⟨.ok (.pyInt 9), 1, [[]]⟩) := by
  refine ⟨?_, ?_, rfl, rfl, rfl⟩
  · intro cfg heap request routeArgs a p d' hdflt hget hcol
    unfold inputTransCall
    rw [hget, bindE_ok]
    simp only [hdflt]
    rw [hcol, bindE_ok]
    rfl
  · intro heap p d hp
    show ((List.set heap p d).get? p).getD [] = d
    simp [List.get?_eq_getElem?, List.getElem?_set_self, hp]

/-- C10 witness: the aliasing statement instantiated at the concrete
first request — the stored cell `0` for attribute `"f"` is returned and
overwritten with the collected mapping. -/
theorem claim_C10_witness :
    inputTransCall
        ⟨.node [] [] [] [] none, [("f", 0)], [SRC_JSON, SRC_ARGS],
          fun _ v => v⟩
        [[("y", .pyInt 1)]]
        ⟨[("attr", .pyStr "f"), ("x", .pyInt 5)], []⟩ [] =
      .ok (.pyStr "f", 0,
        heapSet [[("y", .pyInt 1)]] 0
          (dictPop [("y", .pyInt 1), ("x", .pyInt 5)] ATTR)) :=
  claim_C10.1
    ⟨.node [] [] [] [] none, [("f", 0)], [SRC_JSON, SRC_ARGS], fun _ v => v⟩
    [[("y", .pyInt 1)]] ⟨[("attr", .pyStr "f"), ("x", .pyInt 5)], []⟩ []
    "f" 0 [("y", .pyInt 1), ("x", .pyInt 5)] rfl rfl rfl

end Py2Api
